import Mathlib

/-!
Shallow embedding of the pywayland wire-marshaling core: the argument type
system and signature computation (scanner/argument.py together with the
runtime argument model), the wire codec of protocol_core/message.py
(Message.arguments_to_c, Message.c_to_arguments, and the signature part of
Message.build_message_struct), the object registry of spec section 4.4, and
the client proxy lifecycle of client/proxy.py with the ensure_valid guard
from pywayland.utils.
-/

namespace Pywayland

/-- The closed set of wire argument kinds.  The runtime module
protocol_core/argument.py is not in the source tree; the enumeration is
modelled from the spec (section 3, ArgumentType) and coincides with the
kinds handled by scanner/argument.py type_to_string and by
protocol_core/message.py. -/
inductive ArgumentType where
  | Int
  | Uint
  | Fixed
  | String
  | Object
  | NewId
  | Array
  | FileDescriptor
  deriving DecidableEq, Repr

/-- Interface descriptor as consulted by the runtime argument model: the
generated interface classes carry a protocol name and a version
(spec section 3, Interface). -/
structure Interface where
  name : String
  version : Nat
  deriving DecidableEq, Repr

/-- Runtime argument descriptor.  Modelled from the spec: the dataclass of
protocol_core/argument.py is absent from the source tree; per spec section 3
an argument is a type together with a nullable flag and an optional
referenced interface, with the defaults matching the bare constructor calls
Argument(ArgumentType.String) and Argument(ArgumentType.Uint) in
protocol_core/message.py. -/
structure Argument where
  argument_type : ArgumentType
  nullable : Bool := false
  interface : Option Interface := Option.none
  deriving DecidableEq, Repr

/-- Signature character table, following scanner/argument.py
type_to_string (lines 63-85): a NewId argument maps to a single n when its
interface is known and to the three characters sun when it is unbound. -/
def Argument.type_to_string (a : Argument) : String :=
  match a.argument_type with
  | ArgumentType.Int => "i"
  | ArgumentType.Uint => "u"
  | ArgumentType.Fixed => "f"
  | ArgumentType.String => "s"
  | ArgumentType.Object => "o"
  | ArgumentType.NewId =>
    match a.interface with
    | Option.some _ => "n"
    | Option.none => "sun"
  | ArgumentType.Array => "a"
  | ArgumentType.FileDescriptor => "h"

/-- Per-argument signature, following scanner/argument.py signature
(lines 51-61): a question mark is prepended when the argument is
nullable. -/
def Argument.signature (a : Argument) : String :=
  if a.nullable then "?" ++ a.type_to_string else a.type_to_string

/-- Message descriptor (protocol_core/message.py Message.__init__):
the wrapped Python callable is elided; the name derived from it, the
declared argument list and the optional version are kept. -/
structure Message where
  name : String
  arguments : List Argument
  version : Option Nat
  deriving DecidableEq, Repr

/-- Expansion step of Message._marshaled_arguments (message.py lines
52-58): every argument is passed through, and an argument that is a NewId
with no interface is preceded by a synthesized String argument and a
synthesized Uint argument. -/
def marshalExpand : List Argument → List Argument
  | [] => []
  | arg :: rest =>
    if arg.interface = Option.none ∧ arg.argument_type = ArgumentType.NewId then
      { argument_type := ArgumentType.String }
        :: { argument_type := ArgumentType.Uint }
        :: arg :: marshalExpand rest
    else
      arg :: marshalExpand rest

/-- The marshaled argument list of a message (message.py lines 52-58). -/
def Message._marshaled_arguments (m : Message) : List Argument :=
  marshalExpand m.arguments

/-- The wire signature string computed inside Message.build_message_struct
(message.py lines 69-71): the concatenation of the per-argument signatures
over the declared arguments, preceded by the version number when the
message carries one. -/
def Message.build_signature (m : Message) : String :=
  let signature := String.join (m.arguments.map Argument.signature)
  match m.version with
  | Option.some v => toString v ++ signature
  | Option.none => signature

/-- One cell of the outgoing or incoming wl_argument union array.  Each
constructor records which union field was written and with what value;
zero stands for a cell that ffi.new zero-initialized and that no branch of
the encoder ever wrote. -/
inductive WireCell where
  | int (n : Int)
  | uint (n : Nat)
  | fixed (f : Int)
  | str (s : Option String)
  | obj (o : Option Nat)
  | fd (n : Int)
  | array (a : Option (List Nat))
  | zero
  deriving DecidableEq, Repr

/-- Reading the i field of a cell: defined when the cell was written
through i or left zero-initialized; reading any other field is a type pun
with unspecified value, modelled as Option.none. -/
def readI : WireCell → Option Int
  | WireCell.int n => Option.some n
  | WireCell.zero => Option.some 0
  | _ => Option.none

/-- Reading the u field of a cell; see readI. -/
def readU : WireCell → Option Nat
  | WireCell.uint n => Option.some n
  | WireCell.zero => Option.some 0
  | _ => Option.none

/-- Reading the f field of a cell; see readI. -/
def readF : WireCell → Option Int
  | WireCell.fixed f => Option.some f
  | WireCell.zero => Option.some 0
  | _ => Option.none

/-- Reading the h field of a cell; see readI. -/
def readH : WireCell → Option Int
  | WireCell.fd n => Option.some n
  | WireCell.zero => Option.some 0
  | _ => Option.none

/-- Reading the s field of a cell; the inner Option.none is the NULL char
pointer (the zero cell reads as NULL). -/
def readS : WireCell → Option (Option String)
  | WireCell.str s => Option.some s
  | WireCell.zero => Option.some Option.none
  | _ => Option.none

/-- Reading the o field of a cell; the inner Option.none is the NULL
object pointer. -/
def readO : WireCell → Option (Option Nat)
  | WireCell.obj o => Option.some o
  | WireCell.zero => Option.some Option.none
  | _ => Option.none

/-- Reading the a field of a cell; the inner Option.none is a NULL
wl_array pointer, which the decoder would dereference. -/
def readA : WireCell → Option (Option (List Nat))
  | WireCell.array a => Option.some a
  | WireCell.zero => Option.some Option.none
  | _ => Option.none

/-- Runtime values passed to arguments_to_c and returned by
c_to_arguments.  Python floats are modelled as rationals; a proxy value
carries its optional underlying pointer (None once destroyed). -/
inductive PyVal where
  | int (n : Int)
  | float (q : ℚ)
  | str (s : String)
  | pynone
  | proxy (ptr : Option Nat)
  | bytes (b : List Nat)
  deriving DecidableEq, Repr

/-- Modelled from the spec: wl_fixed_from_int is external libwayland code;
per spec section 3 Fixed is a 24.8 signed fixed point, so an integer is
scaled by 256 exactly. -/
def wlFixedFromInt (n : Int) : Int := n * 256

/-- Modelled from the spec: wl_fixed_from_double is external libwayland
code; per spec section 4.2 a floating value is converted to the nearest
24.8 fixed representation, with precision loss beyond 1/256 expected. -/
def wlFixedFromDouble (q : ℚ) : Int := round (q * 256)

/-- Modelled from the spec: wl_fixed_to_double is external libwayland
code; the inverse of the 24.8 transform divides by 256. -/
def wlFixedToDouble (f : Int) : ℚ := (f : ℚ) / 256

/-- Failures of arguments_to_c: StopIteration from the exhausted caller
argument iterator, the bare Exception raised for a null non-nullable
String or Object (named NullNotAllowed by the spec), cffi type errors for
values of the wrong Python type, cffi overflow on out-of-range integers,
and the error cffi raises for ffi.new of a void array, whose item size is
unknown. -/
inductive EncodeError where
  | stopIteration
  | nullNotAllowed
  | typeError
  | overflowError
  | ffiVoidArray
  deriving DecidableEq, Repr

/-- Encoding of one non-NewId marshaled argument from one consumed caller
value, following the if/elif chain of message.py lines 167-205.  The Array
branch (lines 198-205) raises before completing: after allocating the
wl_array struct, its second statement calls ffi.new for a void array
(line 201), which cffi rejects because void has unknown item size, so the
encode fails there and args_ptr at that index is never assigned (and even
past that point the branch would never store the array into the cell).
The NewId case is handled by the caller before a value is consumed; the
chain has no branch for it, so nothing would be written there either. -/
def encodeOne (argument : Argument) (arg : PyVal) : Except EncodeError WireCell :=
  match argument.argument_type with
  | ArgumentType.Int =>
    match arg with
    | PyVal.int n =>
      if -(2 ^ 31) ≤ n ∧ n < 2 ^ 31 then Except.ok (WireCell.int n)
      else Except.error EncodeError.overflowError
    | _ => Except.error EncodeError.typeError
  | ArgumentType.Uint =>
    match arg with
    | PyVal.int n =>
      if 0 ≤ n ∧ n < 2 ^ 32 then Except.ok (WireCell.uint n.toNat)
      else Except.error EncodeError.overflowError
    | _ => Except.error EncodeError.typeError
  | ArgumentType.Fixed =>
    match arg with
    | PyVal.int n => Except.ok (WireCell.fixed (wlFixedFromInt n))
    | PyVal.float q => Except.ok (WireCell.fixed (wlFixedFromDouble q))
    | _ => Except.error EncodeError.typeError
  | ArgumentType.FileDescriptor =>
    match arg with
    | PyVal.int n =>
      if -(2 ^ 31) ≤ n ∧ n < 2 ^ 31 then Except.ok (WireCell.fd n)
      else Except.error EncodeError.overflowError
    | _ => Except.error EncodeError.typeError
  | ArgumentType.String =>
    match arg with
    | PyVal.pynone =>
      if argument.nullable then Except.ok (WireCell.str Option.none)
      else Except.error EncodeError.nullNotAllowed
    | PyVal.str s => Except.ok (WireCell.str (Option.some s))
    | _ => Except.error EncodeError.typeError
  | ArgumentType.Object =>
    match arg with
    | PyVal.pynone =>
      if argument.nullable then Except.ok (WireCell.obj Option.none)
      else Except.error EncodeError.nullNotAllowed
    | PyVal.proxy p =>
      match p with
      | Option.none => Except.error EncodeError.typeError
      | Option.some ptr => Except.ok (WireCell.obj (Option.some ptr))
    | _ => Except.error EncodeError.typeError
  | ArgumentType.NewId => Except.ok WireCell.zero
  | ArgumentType.Array =>
    match arg with
    | PyVal.bytes _ => Except.error EncodeError.ffiVoidArray
    | PyVal.str _ => Except.error EncodeError.ffiVoidArray
    | _ => Except.error EncodeError.typeError

/-- The encode loop of arguments_to_c (message.py lines 157-205) over the
marshaled argument list: a NewId argument gets a NULL object placeholder
cell and consumes no caller value; every other argument consumes the next
caller value (next on the exhausted iterator raises StopIteration) and is
encoded by encodeOne.  Caller values left over after the loop are
ignored, as the iterator is simply not drained. -/
def encodeArgs : List Argument → List PyVal → Except EncodeError (List WireCell)
  | [], _ => Except.ok []
  | argument :: rest, args =>
    if argument.argument_type = ArgumentType.NewId then
      match encodeArgs rest args with
      | Except.error e => Except.error e
      | Except.ok cells => Except.ok (WireCell.obj Option.none :: cells)
    else
      match args with
      | [] => Except.error EncodeError.stopIteration
      | arg :: args2 =>
        match encodeOne argument arg with
        | Except.error e => Except.error e
        | Except.ok cell =>
          match encodeArgs rest args2 with
          | Except.error e => Except.error e
          | Except.ok cells => Except.ok (cell :: cells)

/-- Message.arguments_to_c (message.py lines 144-210): encode the caller
argument list against the marshaled arguments of the message. -/
def Message.arguments_to_c (m : Message) (args : List PyVal) : Except EncodeError (List WireCell) :=
  encodeArgs m._marshaled_arguments args

/-- Failures of c_to_arguments: the NotImplementedError on NewId, the
RuntimeError for a null non-nullable Object (a protocol violation), the
RuntimeError for an object absent from the registry (dangling reference),
the RuntimeError cffi raises for ffi.string on a NULL pointer, the bare
Exception of the dead null-String branch, a read past the end of the
delivered cells, a dereference of a NULL wl_array pointer, and a read of
a union field other than the one written. -/
inductive DecodeError where
  | notImplemented
  | protocolViolation
  | danglingObject
  | ffiStringNull
  | nullNotAllowed
  | indexOutOfBounds
  | nullArrayDeref
  | typePun
  deriving DecidableEq, Repr

/-- The comparison on message.py line 112: arg_ptr is the whole
wl_argument union element args_ptr at index i, not its s field, and cffi
compares a non-primitive cdata with ffi.NULL by address; the address of an
array element is never NULL, so the comparison is false for every cell. -/
def cdataUnionEqNull (_ : WireCell) : Bool := false

/-- Decoding of one declared argument from one cell, following the
if/elif chain of message.py lines 101-140.  reg is the pointer-keyed
proxy registry consulted by the Object branch (iface.proxy_class.registry
on line 129, a mapping not present in the source tree, modelled as a
lookup function per spec section 4.4). -/
def decodeOne (reg : Nat → Option PyVal) (argument : Argument) (cell : WireCell) :
    Except DecodeError PyVal :=
  match argument.argument_type with
  | ArgumentType.Int =>
    match readI cell with
    | Option.some n => Except.ok (PyVal.int n)
    | Option.none => Except.error DecodeError.typePun
  | ArgumentType.Uint =>
    match readU cell with
    | Option.some n => Except.ok (PyVal.int (Int.ofNat n))
    | Option.none => Except.error DecodeError.typePun
  | ArgumentType.Fixed =>
    match readF cell with
    | Option.some f => Except.ok (PyVal.float (wlFixedToDouble f))
    | Option.none => Except.error DecodeError.typePun
  | ArgumentType.FileDescriptor =>
    match readH cell with
    | Option.some n => Except.ok (PyVal.int n)
    | Option.none => Except.error DecodeError.typePun
  | ArgumentType.String =>
    if cdataUnionEqNull cell then
      if argument.nullable = false then Except.error DecodeError.nullNotAllowed
      else Except.ok PyVal.pynone
    else
      match readS cell with
      | Option.none => Except.error DecodeError.typePun
      | Option.some Option.none => Except.error DecodeError.ffiStringNull
      | Option.some (Option.some s) => Except.ok (PyVal.str s)
  | ArgumentType.Object =>
    match readO cell with
    | Option.none => Except.error DecodeError.typePun
    | Option.some Option.none =>
      if argument.nullable = false then Except.error DecodeError.protocolViolation
      else Except.ok PyVal.pynone
    | Option.some (Option.some ptr) =>
      match reg ptr with
      | Option.none => Except.error DecodeError.danglingObject
      | Option.some obj => Except.ok obj
  | ArgumentType.NewId => Except.error DecodeError.notImplemented
  | ArgumentType.Array =>
    match readA cell with
    | Option.none => Except.error DecodeError.typePun
    | Option.some Option.none => Except.error DecodeError.nullArrayDeref
    | Option.some (Option.some b) => Except.ok (PyVal.bytes b)

/-- The decode loop of c_to_arguments (message.py lines 97-142) over the
declared arguments, reading the cell at each declared index; indexing
past the delivered cells is an unchecked C array read, modelled as an
error. -/
def decodeArgs (reg : Nat → Option PyVal) :
    List Argument → List WireCell → Except DecodeError (List PyVal)
  | [], _ => Except.ok []
  | _ :: _, [] => Except.error DecodeError.indexOutOfBounds
  | argument :: rest, cell :: cells =>
    match decodeOne reg argument cell with
    | Except.error e => Except.error e
    | Except.ok v =>
      match decodeArgs reg rest cells with
      | Except.error e => Except.error e
      | Except.ok vs => Except.ok (v :: vs)

/-- Message.c_to_arguments (message.py lines 86-142). -/
def Message.c_to_arguments (m : Message) (reg : Nat → Option PyVal) (cells : List WireCell) :
    Except DecodeError (List PyVal) :=
  decodeArgs reg m.arguments cells

/-- Failure of the registry register operation (spec section 4.4). -/
inductive RegistryError where
  | duplicateIdentity
  deriving DecidableEq, Repr

/-- Modelled from the spec: the source tree contains no registry
implementation (message.py line 129 only calls registry.get); per spec
sections 3 and 4.4 the Object Registry is a map from wire identity to
proxy, here an association list from identity to a proxy handle. -/
def ObjRegistry : Type := List (Nat × Nat)

/-- Modelled from the spec: resolve is a pure lookup of an identity
(spec section 4.4). -/
def ObjRegistry.resolve (r : ObjRegistry) (identity : Nat) : Option Nat :=
  List.lookup identity r

/-- Modelled from the spec: register inserts the identity-to-proxy
mapping, failing with DuplicateIdentity when the identity is already live
(spec section 4.4). -/
def ObjRegistry.register (r : ObjRegistry) (identity : Nat) (proxyHandle : Nat) :
    Except RegistryError ObjRegistry :=
  match r.resolve identity with
  | Option.some _ => Except.error RegistryError.duplicateIdentity
  | Option.none => Except.ok ((identity, proxyHandle) :: r)

/-- Modelled from the spec: unregister removes the mapping for the
identity (spec section 4.4). -/
def ObjRegistry.unregister (r : ObjRegistry) (identity : Nat) : ObjRegistry :=
  List.filter (fun e => decide (e.1 ≠ identity)) r

/-- Client proxy state (client/proxy.py): the underlying pointer, the
reference to the owning display, and the user data slot.  Pointers and
display references are opaque addresses. -/
structure Proxy where
  _ptr : Option Nat
  _display : Option Nat
  user_data : Option Nat
  deriving DecidableEq, Repr

/-- Truthiness of the stored pointer as tested on proxy.py line 60: a
Python None is falsy and a cdata pointer is falsy exactly when it is
NULL. -/
def ptrTruthy : Option Nat → Bool
  | Option.none => false
  | Option.some n => decide (n ≠ 0)

/-- Failures of proxy construction and of the marshal methods. -/
inductive ProxyError where
  | destroyedProxy
  | valueError
  | indexError
  | encodeFailed (e : EncodeError)
  deriving DecidableEq, Repr

/-- Proxy.__init__ (proxy.py lines 34-56): the fields are set, then a
proxy with no pointer returns early (the root display case, user_data
left None); a proxy with a pointer but no display raises ValueError; the
dispatcher wiring is an external ffi effect with no bearing on the
resulting state. -/
def Proxy.init (ptr : Option Nat) (display : Option Nat) : Except ProxyError Proxy :=
  if ptr = Option.none then
    Except.ok { _ptr := ptr, _display := display, user_data := Option.none }
  else if display = Option.none then
    Except.error ProxyError.valueError
  else
    Except.ok { _ptr := ptr, _display := display, user_data := Option.none }

/-- Proxy._destroy (proxy.py lines 58-64): when the pointer is truthy it
is cleared to None; the wl_proxy_destroy call itself is commented out in
the source. -/
def Proxy._destroy (p : Proxy) : Proxy :=
  if ptrTruthy p._ptr then { p with _ptr := Option.none } else p

/-- Modelled from the spec: ensure_valid is imported from pywayland.utils
on proxy.py line 17 but absent from the copy of utils.py in the source
tree; per spec section 3 a destroyed Proxy no longer accepts marshal
calls, so the guard fails when the pointer has been cleared to None. -/
def ensure_valid_ok (p : Proxy) : Bool := p._ptr.isSome

/-- Proxy._marshal (proxy.py lines 66-74) under the ensure_valid guard:
look up the request message at the opcode within the interface request
table and encode the caller arguments; the wl_proxy_marshal_array send is
the external transport, so the encoded cells are the observable result. -/
def Proxy._marshal (p : Proxy) (requests : List Message) (opcode : Nat) (args : List PyVal) :
    Except ProxyError (List WireCell) :=
  if ensure_valid_ok p = false then Except.error ProxyError.destroyedProxy
  else
    match requests[opcode]? with
    | Option.none => Except.error ProxyError.indexError
    | Option.some msg =>
      match msg.arguments_to_c args with
      | Except.error e => Except.error (ProxyError.encodeFailed e)
      | Except.ok cells => Except.ok cells

/-- Proxy._marshal_constructor (proxy.py lines 76-94) under the
ensure_valid guard: the display is the stored one or the proxy itself
(modelled by its own pointer); the returned proxy wraps the pointer the
external wl_proxy_marshal_array_constructor call produced. -/
def Proxy._marshal_constructor (p : Proxy) (requests : List Message) (opcode : Nat)
    (newPtr : Nat) (args : List PyVal) : Except ProxyError (List WireCell × Proxy) :=
  if ensure_valid_ok p = false then Except.error ProxyError.destroyedProxy
  else
    match requests[opcode]? with
    | Option.none => Except.error ProxyError.indexError
    | Option.some msg =>
      match msg.arguments_to_c args with
      | Except.error e => Except.error (ProxyError.encodeFailed e)
      | Except.ok cells =>
        let display := match p._display with
          | Option.some d => Option.some d
          | Option.none => p._ptr
        Except.ok (cells, { _ptr := Option.some newPtr, _display := display, user_data := Option.none })

/-- The wl_registry bind message: a Uint name argument followed by an
unbound NewId (spec section 8, end-to-end scenario). -/
def bind_message : Message :=
  { name := "bind",
    arguments := [{ argument_type := ArgumentType.Uint }, { argument_type := ArgumentType.NewId }],
    version := Option.none }

/-- Claim C1, counterexample: encoding the bind message with the caller
argument list consisting of the single value 7 does not succeed; the
synthesized String marshaled argument consumes a caller value, so the
iterator is exhausted and the encode raises StopIteration. -/
theorem c1_counterexample :
    Message.arguments_to_c bind_message [PyVal.int 7] = Except.error EncodeError.stopIteration :=
  rfl

/-- Claim C1, amended: encoding the bind message succeeds when the caller
also supplies the interface name and version, with argument list
(7, name, version), and then yields exactly the four wire cells Uint 7,
String name, Uint version and the null new-object placeholder; only the
NewId placeholder cell is synthesized without consuming a caller value. -/
theorem c1_bind_encode_amended :
    Message.arguments_to_c bind_message [PyVal.int 7, PyVal.str "wl_output", PyVal.int 3] =
      Except.ok [WireCell.uint 7, WireCell.str (Option.some "wl_output"), WireCell.uint 3,
        WireCell.obj Option.none] :=
  rfl

/-- The signature character table as worded by the spec, section 4.1. -/
def specTypeChars (a : Argument) : String :=
  match a.argument_type with
  | ArgumentType.Int => "i"
  | ArgumentType.Uint => "u"
  | ArgumentType.Fixed => "f"
  | ArgumentType.String => "s"
  | ArgumentType.Object => "o"
  | ArgumentType.NewId => if a.interface.isSome then "n" else "sun"
  | ArgumentType.Array => "a"
  | ArgumentType.FileDescriptor => "h"

/-- The message signature as worded by the spec: concatenation of each
argument's signature characters, a question mark prepended when nullable,
the whole string preceded by the version number when versioned. -/
def specSignature (m : Message) : String :=
  (match m.version with
    | Option.some v => toString v
    | Option.none => "") ++
    String.join (m.arguments.map (fun a => (if a.nullable then "?" else "") ++ specTypeChars a))

theorem type_chars_eq (a : Argument) : a.type_to_string = specTypeChars a := by
  cases a with
  | mk t nl i => cases t <;> cases i <;> rfl

theorem signature_split (a : Argument) :
    Argument.signature a = (if a.nullable then "?" else "") ++ specTypeChars a := by
  rw [← type_chars_eq]
  cases h : a.nullable
  · simp [Argument.signature, h, String.empty_append]
  · simp [Argument.signature, h]

/-- Claim C2: for every message the computed wire signature is the
concatenation of the per-argument signature characters, with a question
mark prepended for a nullable argument and the version number prepended
when the message is versioned; concretely, Int32 followed by a nullable
Object gives the signature string i?o. -/
theorem c2_signature :
    (∀ m : Message, Message.build_signature m = specSignature m) ∧
    Message.build_signature
      { name := "ev",
        arguments := [{ argument_type := ArgumentType.Int },
          { argument_type := ArgumentType.Object, nullable := true,
            interface := Option.some { name := "wl_surface", version := 4 } }],
        version := Option.none } = "i?o" := by
  constructor
  · intro m
    have hfun : Argument.signature = fun a => (if a.nullable then "?" else "") ++ specTypeChars a :=
      funext signature_split
    cases hv : m.version with
    | none => simp [Message.build_signature, specSignature, hv, hfun, String.empty_append]
    | some v => simp [Message.build_signature, specSignature, hv, hfun]
  · rfl

theorem marshalExpand_append (xs ys : List Argument) :
    marshalExpand (xs ++ ys) = marshalExpand xs ++ marshalExpand ys := by
  induction xs with
  | nil => rfl
  | cons a rest ih =>
    by_cases h : a.interface = Option.none ∧ a.argument_type = ArgumentType.NewId
    · simp [marshalExpand, h, ih]
    · simp [marshalExpand, h, ih]

theorem marshalExpand_length (args : List Argument) :
    (marshalExpand args).length =
      args.length + 2 * args.countP
        (fun a => decide (a.interface = Option.none ∧ a.argument_type = ArgumentType.NewId)) := by
  induction args with
  | nil => rfl
  | cons a rest ih =>
    by_cases h : a.interface = Option.none ∧ a.argument_type = ArgumentType.NewId
    · simp [marshalExpand, h, ih, List.countP_cons]
      omega
    · simp [marshalExpand, h, ih, List.countP_cons]
      omega

/-- Claim C3: an unbound NewId argument has the three signature characters
sun and expands, in the marshaled layout only, to three cells led by the
synthesized String and Uint arguments, while a bound NewId has the single
character n and stays a single marshaled argument; the declared argument
list itself never changes, its length staying the marshaled length minus
two per unbound NewId. -/
theorem c3_newid_expansion :
    (Argument.signature { argument_type := ArgumentType.NewId } = "sun") ∧
    (∀ i : Interface,
      Argument.signature { argument_type := ArgumentType.NewId, interface := Option.some i } = "n") ∧
    (∀ pre post : List Argument,
      marshalExpand (pre ++ { argument_type := ArgumentType.NewId } :: post) =
        marshalExpand pre ++ { argument_type := ArgumentType.String }
          :: { argument_type := ArgumentType.Uint }
          :: { argument_type := ArgumentType.NewId } :: marshalExpand post) ∧
    (∀ (i : Interface) (pre post : List Argument),
      marshalExpand (pre ++ { argument_type := ArgumentType.NewId, interface := Option.some i } :: post) =
        marshalExpand pre
          ++ { argument_type := ArgumentType.NewId, interface := Option.some i }
            :: marshalExpand post) ∧
    (∀ m : Message,
      m._marshaled_arguments.length =
        m.arguments.length + 2 * m.arguments.countP
          (fun a => decide (a.interface = Option.none ∧ a.argument_type = ArgumentType.NewId))) := by
  refine ⟨rfl, fun i => rfl, ?_, ?_, ?_⟩
  · intro pre post
    rw [marshalExpand_append]
    simp [marshalExpand]
  · intro i pre post
    rw [marshalExpand_append]
    simp [marshalExpand]
  · intro m
    exact marshalExpand_length m.arguments

/-- A message with a single Array argument, for evaluating the Array
round trip. -/
def array_message : Message :=
  { name := "ev", arguments := [{ argument_type := ArgumentType.Array }], version := Option.none }

/-- Claim C4, evaluation at the failing input: encoding the byte blob
1, 2, 3 for an Array argument raises inside the Array branch, where cffi
rejects the allocation of a void array (message.py line 201), so the
encode produces no cells at all and decoding the encoding of an Array
value can never return the original blob. -/
theorem c4_array_roundtrip_eval :
    Message.arguments_to_c array_message [PyVal.bytes [1, 2, 3]] =
      Except.error EncodeError.ffiVoidArray :=
  rfl

/-- A message with a single nullable String argument. -/
def nullable_string_message : Message :=
  { name := "ev",
    arguments := [{ argument_type := ArgumentType.String, nullable := true }],
    version := Option.none }

/-- Claim C5, evaluation at the failing input: encoding None for a
nullable String yields the wire-null cell and encoding None for a
non-nullable String fails with the null-not-allowed error, as claimed;
but decoding the wire-null cell of the nullable String raises instead of
returning None, because the null check compares the whole union cdata to
ffi.NULL, which is never true, and ffi.string is then called on the NULL
char pointer. -/
theorem c5_null_string_eval :
    Message.arguments_to_c nullable_string_message [PyVal.pynone] =
      Except.ok [WireCell.str Option.none] ∧
    Message.arguments_to_c
      { name := "ev2",
        arguments := [{ argument_type := ArgumentType.String }],
        version := Option.none } [PyVal.pynone] = Except.error EncodeError.nullNotAllowed ∧
    Message.c_to_arguments nullable_string_message (fun _ => Option.none)
      [WireCell.str Option.none] = Except.error DecodeError.ffiStringNull :=
  ⟨rfl, rfl, rfl⟩

/-- A single-argument event message carrying one Object argument of the
given nullability and referenced interface, the shape on which the Object
decode rule of c_to_arguments is stated. -/
def objMessage (nm : String) (b : Bool) (i : Interface) : Message :=
  { name := nm,
    arguments :=
      [{ argument_type := ArgumentType.Object, nullable := b, interface := Option.some i }],
    version := Option.none }

/-- A concrete interface for witnesses. -/
def wl_surface_interface : Interface := { name := "wl_surface", version := 4 }

/-- Claim C6: decoding an Object argument of an event resolves the wire
identity through the registry; a non-null identity absent from the
registry fails as a dangling object reference, a null identity on a
non-nullable argument fails as a protocol violation, and otherwise the
decode returns None for a null nullable identity or the registered proxy
for a resolvable one. -/
theorem c6_object_decode (reg : Nat → Option PyVal) (nm : String) (i : Interface)
    (b : Bool) (p : Nat) (v : PyVal) :
    (reg p = Option.none →
      Message.c_to_arguments (objMessage nm b i) reg [WireCell.obj (Option.some p)] =
        Except.error DecodeError.danglingObject) ∧
    (Message.c_to_arguments (objMessage nm false i) reg [WireCell.obj Option.none] =
      Except.error DecodeError.protocolViolation) ∧
    (Message.c_to_arguments (objMessage nm true i) reg [WireCell.obj Option.none] =
      Except.ok [PyVal.pynone]) ∧
    (reg p = Option.some v →
      Message.c_to_arguments (objMessage nm b i) reg [WireCell.obj (Option.some p)] =
        Except.ok [v]) := by
  refine ⟨?_, ?_, ?_, ?_⟩
  · intro h
    simp [objMessage, Message.c_to_arguments, decodeArgs, decodeOne, readO, h]
  · simp [objMessage, Message.c_to_arguments, decodeArgs, decodeOne, readO]
  · simp [objMessage, Message.c_to_arguments, decodeArgs, decodeOne, readO]
  · intro h
    simp [objMessage, Message.c_to_arguments, decodeArgs, decodeOne, readO, h]

theorem c6_object_decode_witness :
    (Message.c_to_arguments (objMessage "ev" false wl_surface_interface) (fun _ => Option.none)
        [WireCell.obj (Option.some 9)] = Except.error DecodeError.danglingObject) ∧
    (Message.c_to_arguments (objMessage "ev" false wl_surface_interface) (fun _ => Option.none)
        [WireCell.obj Option.none] = Except.error DecodeError.protocolViolation) ∧
    (Message.c_to_arguments (objMessage "ev" true wl_surface_interface) (fun _ => Option.none)
        [WireCell.obj Option.none] = Except.ok [PyVal.pynone]) ∧
    (Message.c_to_arguments (objMessage "ev" false wl_surface_interface)
        (fun _ => Option.some (PyVal.proxy (Option.some 9))) [WireCell.obj (Option.some 9)] =
      Except.ok [PyVal.proxy (Option.some 9)]) :=
  ⟨(c6_object_decode (fun _ => Option.none) "ev" wl_surface_interface false 9 PyVal.pynone).1 rfl,
   (c6_object_decode (fun _ => Option.none) "ev" wl_surface_interface false 9 PyVal.pynone).2.1,
   (c6_object_decode (fun _ => Option.none) "ev" wl_surface_interface false 9 PyVal.pynone).2.2.1,
   (c6_object_decode (fun _ => Option.some (PyVal.proxy (Option.some 9))) "ev"
      wl_surface_interface false 9 (PyVal.proxy (Option.some 9))).2.2.2 rfl⟩

theorem decodeOne_newid (reg : Nat → Option PyVal) (a : Argument) (c : WireCell)
    (h : a.argument_type = ArgumentType.NewId) :
    decodeOne reg a c = Except.error DecodeError.notImplemented := by
  unfold decodeOne
  rw [h]

theorem decodeArgs_newid_error (reg : Nat → Option PyVal) :
    ∀ args : List Argument, (∃ a ∈ args, a.argument_type = ArgumentType.NewId) →
      ∀ (cells : List WireCell) (vs : List PyVal), decodeArgs reg args cells ≠ Except.ok vs := by
  intro args
  induction args with
  | nil =>
    intro h
    rcases h with ⟨a, ha, _⟩
    exact absurd ha (List.not_mem_nil a)
  | cons a rest ih =>
    intro h cells vs
    cases cells with
    | nil => simp [decodeArgs]
    | cons c cs =>
      rcases h with ⟨b, hb, hbt⟩
      rcases List.mem_cons.mp hb with heq | hmem
      · simp [decodeArgs, decodeOne_newid reg a c (heq ▸ hbt)]
      · cases hd : decodeOne reg a c with
        | error e => simp [decodeArgs, hd]
        | ok v =>
          cases hr : decodeArgs reg rest cs with
          | error e => simp [decodeArgs, hd, hr]
          | ok vs2 => exact absurd hr (ih ⟨b, hmem, hbt⟩ cs vs2)

/-- Claim C7: for every event message whose declared arguments contain a
NewId argument, bound or unbound, decoding any delivered wire cells
against any registry never succeeds. -/
theorem c7_event_newid_decode_fails (m : Message)
    (h : ∃ a ∈ m.arguments, a.argument_type = ArgumentType.NewId)
    (reg : Nat → Option PyVal) (cells : List WireCell) (vs : List PyVal) :
    Message.c_to_arguments m reg cells ≠ Except.ok vs :=
  decodeArgs_newid_error reg m.arguments h cells vs

theorem c7_witness :
    Message.c_to_arguments
      { name := "created",
        arguments := [{ argument_type := ArgumentType.NewId }],
        version := Option.none } (fun _ => Option.none) [WireCell.obj Option.none] ≠
      Except.ok [] :=
  c7_event_newid_decode_fails _ ⟨{ argument_type := ArgumentType.NewId }, by simp, rfl⟩ _ _ _

theorem lookup_filter_ne (identity : Nat) :
    ∀ r : List (Nat × Nat),
      List.lookup identity (List.filter (fun e => decide (e.1 ≠ identity)) r) = Option.none := by
  intro r
  induction r with
  | nil => rfl
  | cons e rest ih =>
    cases e with
    | mk k v =>
      by_cases h : k = identity
      · rw [List.filter_cons_of_neg (by simp [h])]
        exact ih
      · rw [List.filter_cons_of_pos (by simp [h])]
        have hbeq : (identity == k) = false := by simpa using Ne.symm h
        simp only [List.lookup, hbeq]
        exact ih

/-- Claim C8: the registry keeps at most one live proxy per identity:
whenever registering an identity succeeds, that identity resolves to the
registered proxy, a second register of the same identity fails with
DuplicateIdentity while it is live, and after unregistering it the
identity resolves to nothing. -/
theorem c8_registry_uniqueness (r r2 : ObjRegistry) (identity pA pB : Nat)
    (h : ObjRegistry.register r identity pA = Except.ok r2) :
    ObjRegistry.resolve r2 identity = Option.some pA ∧
    ObjRegistry.register r2 identity pB = Except.error RegistryError.duplicateIdentity ∧
    ObjRegistry.resolve (ObjRegistry.unregister r2 identity) identity = Option.none := by
  unfold ObjRegistry.register at h
  cases hl : ObjRegistry.resolve r identity with
  | some q =>
    rw [hl] at h
    exact absurd h (by simp)
  | none =>
    rw [hl] at h
    have hr2 : r2 = (identity, pA) :: r := by
      cases h
      rfl
    subst hr2
    have hres : ObjRegistry.resolve ((identity, pA) :: r) identity = Option.some pA := by
      simp [ObjRegistry.resolve, List.lookup]
    refine ⟨hres, ?_, ?_⟩
    · unfold ObjRegistry.register
      rw [hres]
    · unfold ObjRegistry.unregister ObjRegistry.resolve
      exact lookup_filter_ne identity ((identity, pA) :: r)

theorem c8_witness :
    ObjRegistry.resolve [(5, 1)] 5 = Option.some 1 ∧
    ObjRegistry.register [(5, 1)] 5 2 = Except.error RegistryError.duplicateIdentity ∧
    ObjRegistry.resolve (ObjRegistry.unregister [(5, 1)] 5) 5 = Option.none :=
  c8_registry_uniqueness [] [(5, 1)] 5 1 2 rfl

/-- Claim C9: once a proxy with a live pointer has been destroyed, its
pointer is cleared, and both marshal operations fail on it instead of
marshaling a request. -/
theorem c9_destroyed_marshal_fails (p : Proxy) (requests : List Message) (opcode : Nat)
    (newPtr : Nat) (args : List PyVal) (h : ptrTruthy p._ptr = true) :
    (p._destroy)._ptr = Option.none ∧
    Proxy._marshal p._destroy requests opcode args = Except.error ProxyError.destroyedProxy ∧
    Proxy._marshal_constructor p._destroy requests opcode newPtr args =
      Except.error ProxyError.destroyedProxy := by
  have hptr : (p._destroy)._ptr = Option.none := by
    simp [Proxy._destroy, h]
  refine ⟨hptr, ?_, ?_⟩
  · simp [Proxy._marshal, ensure_valid_ok, hptr]
  · simp [Proxy._marshal_constructor, ensure_valid_ok, hptr]

theorem c9_witness :
    (Proxy._destroy { _ptr := Option.some 7, _display := Option.some 1, user_data := Option.none })._ptr =
      Option.none ∧
    Proxy._marshal
      (Proxy._destroy { _ptr := Option.some 7, _display := Option.some 1, user_data := Option.none })
      [] 0 [] = Except.error ProxyError.destroyedProxy ∧
    Proxy._marshal_constructor
      (Proxy._destroy { _ptr := Option.some 7, _display := Option.some 1, user_data := Option.none })
      [] 0 3 [] = Except.error ProxyError.destroyedProxy :=
  c9_destroyed_marshal_fails
    { _ptr := Option.some 7, _display := Option.some 1, user_data := Option.none } [] 0 3 []
    (by decide)

/-- Claim C10: constructing a proxy with a pointer but no display always
fails with ValueError, and a proxy constructed with no pointer succeeds
unconditionally, returning early with its user data left None. -/
theorem c10_proxy_init (ptr display : Option Nat) :
    (ptr ≠ Option.none → display = Option.none →
      Proxy.init ptr display = Except.error ProxyError.valueError) ∧
    (Proxy.init Option.none display =
      Except.ok { _ptr := Option.none, _display := display, user_data := Option.none }) := by
  constructor
  · intro hp hd
    simp [Proxy.init, hp, hd]
  · simp [Proxy.init]

theorem c10_witness :
    Proxy.init (Option.some 7) Option.none = Except.error ProxyError.valueError ∧
    Proxy.init Option.none (Option.some 1) =
      Except.ok { _ptr := Option.none, _display := Option.some 1, user_data := Option.none } :=
  ⟨(c10_proxy_init (Option.some 7) Option.none).1 (by simp) rfl,
   (c10_proxy_init Option.none (Option.some 1)).2⟩

end Pywayland
